import Mathlib

/-!
Verification of the weather-derivation pipeline of `src/script.js`
(the first, calendar-date-aligned variant: `determinePrecipitationType`,
`getPrecipitationDisplay`, `detectHazards`, `getHazardDisplay`,
`calculatePFI`, `generateComparisons`, `generateComparisonData`,
`generateMockComparisons`, `generateWeekPFI`, `displayResults`).

Numbers are modelled as exact rationals.  A calendar date is modelled as an
integer epoch-day count (day 0 = Thursday 1970-01-01); JavaScript's
`toLocaleDateString('en-US', { weekday: 'short' })` becomes `weekdayShort`.
The current wall-clock date (`new Date()` in the JS) is passed explicitly as
a `now : Int` parameter to the functions that read it.  JavaScript `null` /
`undefined` values are modelled with `Option`, and out-of-range array reads
(which yield `undefined` in JS) with `List.get?` / `List.getD`.
-/

/-- One index of the parallel per-day arrays in `weatherData.daily`
(fields keep the Open-Meteo names used by `script.js`).
`precipitation_probability_max` may be absent (`undefined` in JS). -/
structure DailyObservation where
  time : Int
  apparent_temperature_min : ℚ
  apparent_temperature_max : ℚ
  cloudcover_mean : ℚ
  precipitation_probability_max : Option ℚ
  precipitation_sum : ℚ
  windspeed_10m_max : ℚ
  relative_humidity_2m_mean : ℚ
deriving DecidableEq

/-- The per-day `{rain, snow}` probability pair built by `calculatePFI`. -/
structure PrecipPair where
  rain : ℚ
  snow : ℚ
deriving DecidableEq

/-- One element of the `pfiData` array produced by `calculatePFI`. -/
structure PfiDay where
  date : Int
  pfi : ℚ
  avgApparentTemp : ℚ
  cloudcover : ℚ
  precipitation : PrecipPair
deriving DecidableEq

/-- The per-day loop body of `calculatePFI` (script.js:1026-1061):
`pfi = (apparentTempMin + apparentTempMax) / 2 + 0.02 * (50 - cloudcover)`;
the precipitation probability (defaulted to 0 by `|| 0`) is assigned fully to
`rain` when the average apparent temperature is `> 0` and fully to `snow`
when it is `<= 0`. -/
def calculatePFIDay (day : DailyObservation) : PfiDay :=
  let apparentTempMin := day.apparent_temperature_min
  let apparentTempMax := day.apparent_temperature_max
  let cloudcover := day.cloudcover_mean
  let precipitationProb := day.precipitation_probability_max.getD 0
  let avgApparentTemp := (apparentTempMin + apparentTempMax) / 2
  let cloudAdj := (0.02 : ℚ) * (50 - cloudcover)
  let pfi := avgApparentTemp + cloudAdj
  let avgTemp : ℚ := (apparentTempMin + apparentTempMax) / 2
  let precipitation : PrecipPair :=
    { rain := if avgTemp > 0 then precipitationProb else 0
      snow := if avgTemp ≤ 0 then precipitationProb else 0 }
  { date := day.time
    pfi := pfi
    avgApparentTemp := avgApparentTemp
    cloudcover := cloudcover
    precipitation := precipitation }

/-- `calculatePFI` itself: one output entry per day of `daily`. -/
def calculatePFI (daily : List DailyObservation) : List PfiDay :=
  daily.map calculatePFIDay

/-- The JS `type` field of a precipitation classification. -/
inductive PrecipKind where
  | rain
  | snow
deriving DecidableEq

/-- The `{ type, probability }` object returned by
`determinePrecipitationType` (the JS field `type` is called `kind` here
because `type` is reserved in Lean). -/
structure PrecipType where
  kind : PrecipKind
  probability : ℚ
deriving DecidableEq

/-- `determinePrecipitationType` (script.js:619): `null` when both
probabilities are `<= 30`; otherwise rain exactly when `rainProb > snowProb`,
else snow. -/
def determinePrecipitationType (rainProb snowProb : ℚ) : Option PrecipType :=
  if rainProb ≤ 30 ∧ snowProb ≤ 30 then
    none
  else if rainProb > snowProb then
    some { kind := PrecipKind.rain, probability := rainProb }
  else
    some { kind := PrecipKind.snow, probability := snowProb }

/-- The `{ icon, label, show }` object of the precipitation display
(the JS field `show` is called `shown` here because `show` is reserved
in Lean). -/
structure PrecipDisplay where
  icon : String
  label : String
  shown : Bool
deriving DecidableEq

/-- The `{ icon: '', label: '', show: false }` sentinel. -/
def noPrecipDisplay : PrecipDisplay :=
  { icon := "", label := "", shown := false }

/-- `getPrecipitationDisplay` (script.js:633). -/
def getPrecipitationDisplay (precipitationData : Option PrecipType) : PrecipDisplay :=
  match precipitationData with
  | none => noPrecipDisplay
  | some p =>
    match p.kind with
    | PrecipKind.rain =>
      { icon := "<span class=\"material-symbols-sharp\">rainy</span>"
        label := if p.probability > 60 then "Rain expected" else "Likely to rain"
        shown := true }
    | PrecipKind.snow =>
      { icon := "<span class=\"material-symbols-sharp\">ac_unit</span>"
        label := if p.probability > 60 then "Snow expected" else "Likely to snow"
        shown := true }

/-- JS `daily.precipitation_probability_max[i] >= 70` where the value may be
`undefined` (an absent value compares as false). -/
def probGe70 : Option ℚ → Bool
  | some p => decide (p ≥ 70)
  | none => false

/-- Guard of rule 1 of `detectHazards` (script.js:680). -/
abbrev fireRiskCond (d : DailyObservation) : Prop :=
  d.apparent_temperature_max ≥ 32 ∧ d.relative_humidity_2m_mean ≤ 30 ∧
    d.windspeed_10m_max ≥ 25

/-- Guard of rule 2 of `detectHazards` (script.js:684). -/
abbrev extremeHeatCond (d : DailyObservation) : Prop :=
  d.apparent_temperature_max ≥ 38

/-- Guard of rule 3 of `detectHazards` (script.js:688). -/
abbrev heavyRainCond (d : DailyObservation) : Prop :=
  d.precipitation_sum ≥ 30 ∧ probGe70 d.precipitation_probability_max = true

/-- Guard of rule 4 of `detectHazards` (script.js:692). -/
abbrev snowIceCond (d : DailyObservation) : Prop :=
  d.precipitation_sum > 0 ∧ d.apparent_temperature_min ≤ 0

/-- Guard of rule 5 of `detectHazards` (script.js:696). -/
abbrev extremeColdCond (d : DailyObservation) : Prop :=
  d.apparent_temperature_min ≤ 0

/-- Guard of rule 6 of `detectHazards` (script.js:700). -/
abbrev strongWindsCond (d : DailyObservation) : Prop :=
  d.windspeed_10m_max ≥ 50

/-- The body of the per-day loop of `detectHazards` (script.js:668-705):
an if/else-if chain evaluated in priority order, pushing a hazard name
string or `null`. -/
def detectHazardDay (d : DailyObservation) : Option String :=
  if fireRiskCond d then some "Fire Risk"
  else if extremeHeatCond d then some "Extreme Heat"
  else if heavyRainCond d then some "Heavy Rain"
  else if snowIceCond d then some "Snow/Ice"
  else if extremeColdCond d then some "Extreme Cold"
  else if strongWindsCond d then some "Strong Winds"
  else none

/-- `detectHazards` (script.js:661): one entry per day of `daily`. -/
def detectHazards (weatherDaily : List DailyObservation) : List (Option String) :=
  weatherDaily.map detectHazardDay

/-- The `{ icon, label, show, colorClass }` object of the hazard display
(JS `show` is called `shown`; the sentinel object has no `colorClass` in JS,
modelled as `""`). -/
structure HazardDisplay where
  icon : String
  label : String
  shown : Bool
  colorClass : String
deriving DecidableEq

/-- The `{ icon: '', label: '', show: false }` sentinel. -/
def noHazardDisplay : HazardDisplay :=
  { icon := "", label := "", shown := false, colorClass := "" }

/-- `getHazardDisplay` (script.js:710): switch over the hazard name string;
falsy input or an unknown name yields the hidden sentinel. -/
def getHazardDisplay (hazardType : Option String) : HazardDisplay :=
  match hazardType with
  | none => noHazardDisplay
  | some ht =>
    if ht = "Fire Risk" then
      { icon := "<span class=\"material-symbols-sharp\">mode_heat</span>"
        label := "Fire Risk", shown := true, colorClass := "hazard-hot" }
    else if ht = "Extreme Heat" then
      { icon := "<span class=\"material-symbols-sharp\">heat</span>"
        label := "Extreme Heat", shown := true, colorClass := "hazard-hot" }
    else if ht = "Heavy Rain" then
      { icon := "<span class=\"material-symbols-sharp\">flood</span>"
        label := "Heavy Rain", shown := true, colorClass := "hazard-cold" }
    else if ht = "Snow/Ice" then
      { icon := "<span class=\"material-symbols-sharp\">severe_cold</span>"
        label := "Snow/Ice", shown := true, colorClass := "hazard-cold" }
    else if ht = "Extreme Cold" then
      { icon := "<span class=\"material-symbols-sharp\">severe_cold</span>"
        label := "Extreme Cold", shown := true, colorClass := "hazard-cold" }
    else if ht = "Strong Winds" then
      { icon := "<span class=\"material-symbols-sharp\">air</span>"
        label := "Strong Winds", shown := true, colorClass := "hazard-wind" }
    else noHazardDisplay

/-- JavaScript `Math.round`: round half toward positive infinity. -/
def jsRound (q : ℚ) : ℤ := ⌊q + 1 / 2⌋

/-- Short weekday name of an epoch-day number (day 0 = Thursday), the
model of `toLocaleDateString('en-US', { weekday: 'short' })`. -/
def weekdayShort (d : Int) : String :=
  ["Thu", "Fri", "Sat", "Sun", "Mon", "Tue", "Wed"].getD (d % 7).toNat ""

/-- The record returned by `generateComparisonData` (script.js:1165).
`percentage` stores `Math.abs(percentage)` as in the JS return value. -/
structure ComparisonData where
  arrow : String
  percentage : ℤ
  comparison : String
  fullDisplay : String
  htmlDisplay : String
deriving DecidableEq

/-- `generateComparisonData` (script.js:1165): converts the PFI difference
to `percentage = Math.round(difference * 5)`, classifies it with strict
thresholds, and renders the percentage only when `|percentage| >= 5`.
The `dayName` argument is unused by the JS function as well. -/
def generateComparisonData (difference : ℚ) (dayName : String) : ComparisonData :=
  let percentage : ℤ := jsRound (difference * 5)
  let ac : String × String :=
    if percentage > 35 then ("up", "significantly_hotter")
    else if percentage > 15 then ("up", "noticeably_hotter")
    else if percentage > 5 then ("up", "hotter")
    else if percentage < -35 then ("down", "significantly_colder")
    else if percentage < -15 then ("down", "noticeably_colder")
    else if percentage < -5 then ("down", "colder")
    else ("-", "same")
  { arrow := ac.1
    percentage := |percentage|
    comparison := ac.2
    fullDisplay :=
      if |percentage| ≥ 5 then ac.1 ++ " " ++ toString |percentage| ++ "%" else ac.1
    htmlDisplay :=
      if |percentage| ≥ 5 then ac.1 ++ "<br>" ++ toString |percentage| ++ "%" else ac.1 }

/-- The `{ dayNames, pfiValues }` record of `generateWeekPFI`; a `pfiValues`
entry is `none` for the JS `null` fallback. -/
structure WeekPFI where
  dayNames : List String
  pfiValues : List (Option ℚ)
deriving DecidableEq

/-- `generateWeekPFI` (script.js:1323), the calendar-date variant: both
loops run `i = 1..6` over the array it is given (`pfiData.slice(1)` at the
call site).  A present entry contributes its own API date's weekday name and
its `pfi`; a missing entry (out-of-range read, `undefined` in JS) falls back
to the weekday name of the current wall-clock date plus `i` days and a
`null` PFI value.  `now` models `new Date()`. -/
def generateWeekPFI (now : Int) (pfiData : List PfiDay) : WeekPFI :=
  let loopIdx : List Nat := [1, 2, 3, 4, 5, 6]
  { dayNames :=
      loopIdx.map (fun i =>
        match pfiData.get? i with
        | some d => weekdayShort d.date
        | none => weekdayShort (now + Int.ofNat i))
    pfiValues :=
      loopIdx.map (fun i => (pfiData.get? i).map PfiDay.pfi) }

/-- The record returned by `generateComparisons` (script.js:1153-1161). -/
structure ComparisonResult where
  todayPFI : ℚ
  todayComparison : ComparisonData
  weekPFI : WeekPFI
  todayPrecipitation : PrecipDisplay
  weekPrecipitation : List PrecipDisplay
  todayHazard : HazardDisplay
  weekHazards : List HazardDisplay
deriving DecidableEq

/-- `generateComparisons` (script.js:1068): throws when
`pfiData.length < 7`; otherwise compares today (index 1) with yesterday
(index 0), builds the forward series from `pfiData.slice(1)` via
`generateWeekPFI`, and builds `weekPrecipitation` / `weekHazards` with loops
`i = 1..6` over `pfiData.slice(1)` / `detectHazards(weatherData).slice(1)`,
pushing the hidden sentinel for a missing (out-of-range) entry.
`now` models `new Date()` read inside `generateWeekPFI`. -/
def generateComparisons (now : Int) (pfiData : List PfiDay) (currentTemp : ℚ)
    (weatherDaily : List DailyObservation) : Except String ComparisonResult :=
  if pfiData.length < 7 then
    Except.error "Not enough weather data"
  else
    match pfiData.get? 0, pfiData.get? 1 with
    | some yesterday, some today =>
      let todayVsYesterdayDiff := today.pfi - yesterday.pfi
      let todayComparison := generateComparisonData todayVsYesterdayDiff "Today"
      let weekPFI := generateWeekPFI now (pfiData.drop 1)
      let todayPrecipitation :=
        getPrecipitationDisplay
          (determinePrecipitationType today.precipitation.rain today.precipitation.snow)
      let slicedData := pfiData.drop 1
      let weekPrecipitation :=
        ([1, 2, 3, 4, 5, 6] : List Nat).map (fun i =>
          match slicedData.get? i with
          | some dayData =>
            getPrecipitationDisplay
              (determinePrecipitationType dayData.precipitation.rain
                dayData.precipitation.snow)
          | none => noPrecipDisplay)
      let hazards := detectHazards weatherDaily
      let todayHazard := getHazardDisplay ((hazards.get? 1).getD none)
      let slicedHazards := hazards.drop 1
      let weekHazards :=
        ([1, 2, 3, 4, 5, 6] : List Nat).map (fun i =>
          getHazardDisplay ((slicedHazards.get? i).getD none))
      Except.ok
        { todayPFI := today.pfi
          todayComparison := todayComparison
          weekPFI := weekPFI
          todayPrecipitation := todayPrecipitation
          weekPrecipitation := weekPrecipitation
          todayHazard := todayHazard
          weekHazards := weekHazards }
    | _, _ =>
      -- unreachable under the length guard (JS would crash dereferencing
      -- an undefined element here)
      Except.error "Not enough weather data"

/-- Whether `generateComparisons` returned a `ComparisonResult`
(rather than throwing). -/
def isOkComparison : Except String ComparisonResult → Bool
  | Except.ok _ => true
  | Except.error _ => false

/-- Placeholder record, used only as the default of `resultOrDefault`. -/
def emptyComparisonResult : ComparisonResult :=
  { todayPFI := 0
    todayComparison := generateComparisonData 0 ""
    weekPFI := { dayNames := [], pfiValues := [] }
    todayPrecipitation := noPrecipDisplay
    weekPrecipitation := []
    todayHazard := noHazardDisplay
    weekHazards := [] }

/-- Projects the successful result of `generateComparisons`. -/
def resultOrDefault : Except String ComparisonResult → ComparisonResult
  | Except.ok r => r
  | Except.error _ => emptyComparisonResult

/-- One entry of `window.mockConfig` (mock configuration source file). -/
structure MockDay where
  day : String
  pfi : ℚ
  precipitation : PrecipPair
  hazard : Option String
deriving DecidableEq

/-- `getMockConfig` (mock configuration source file): `null` unless
`TESTING_MODE`, else `window.mockConfig.find(d => d.day === day)`. -/
def getMockConfig (testingMode : Bool) (mockConfig : List MockDay)
    (day : String) : Option MockDay :=
  if !testingMode then none
  else mockConfig.find? (fun d => d.day == day)

/-- The `{ comparison }` object built as `todayComparison` by
`generateMockComparisons` (it carries only this one field in JS). -/
structure MockComparison where
  comparison : String
deriving DecidableEq

/-- The `{ dayNames, pfiValues }` record of the mock path: mock PFI values
are plain numbers (the `22` fallback fills any gap). -/
structure MockWeekPFI where
  dayNames : List String
  pfiValues : List ℚ
deriving DecidableEq

/-- The record returned by `generateMockComparisons` (script.js:1311-1319). -/
structure MockComparisonResult where
  todayPFI : ℚ
  todayComparison : MockComparison
  weekPFI : MockWeekPFI
  todayPrecipitation : PrecipDisplay
  weekPrecipitation : List PrecipDisplay
  todayHazard : HazardDisplay
  weekHazards : List HazardDisplay
deriving DecidableEq

/-- `generateMockComparisons` (script.js:1219): trend bucket from direct
Celsius thresholds on `todayMock.pfi - yesterdayMock.pfi` (`> 7`, `> 3`,
`> 1` and the negatives), day names from the wall-clock date (`now`) plus
1..6 days, PFI values from the mock day keys with fallback `22` then
`slice(2)`, and precipitation/hazard displays from the keys
`tomorrow..day7`.  Returns `none` when the `today` entry is missing (the JS
would crash dereferencing `todayMock.pfi`). -/
def generateMockComparisons (testingMode : Bool) (mockConfig : List MockDay)
    (now : Int) : Option MockComparisonResult :=
  match getMockConfig testingMode mockConfig "today" with
  | none => none
  | some todayMock =>
    let yesterdayMockPfi : ℚ :=
      match getMockConfig testingMode mockConfig "yesterday" with
      | some m => m.pfi
      | none => 20
    let todayVsYesterdayDiff := todayMock.pfi - yesterdayMockPfi
    let comparison : String :=
      if todayVsYesterdayDiff > 7 then "significantly_hotter"
      else if todayVsYesterdayDiff > 3 then "noticeably_hotter"
      else if todayVsYesterdayDiff > 1 then "hotter"
      else if todayVsYesterdayDiff < -7 then "significantly_colder"
      else if todayVsYesterdayDiff < -3 then "noticeably_colder"
      else if todayVsYesterdayDiff < -1 then "colder"
      else "same"
    let dayNames :=
      ([1, 2, 3, 4, 5, 6] : List Int).map (fun i => weekdayShort (now + i))
    let mockDayOrder :=
      ["yesterday", "today", "tomorrow", "day3", "day4", "day5", "day6", "day7"]
    let pfiValues :=
      mockDayOrder.map (fun dayKey =>
        match getMockConfig testingMode mockConfig dayKey with
        | some m => m.pfi
        | none => 22)
    let todayPrecipitation :=
      getPrecipitationDisplay
        (determinePrecipitationType todayMock.precipitation.rain
          todayMock.precipitation.snow)
    let weekMockDays := ["tomorrow", "day3", "day4", "day5", "day6", "day7"]
    let weekPrecipitation :=
      weekMockDays.map (fun dayKey =>
        match getMockConfig testingMode mockConfig dayKey with
        | some m =>
          getPrecipitationDisplay
            (determinePrecipitationType m.precipitation.rain m.precipitation.snow)
        | none => noPrecipDisplay)
    let todayHazard :=
      match todayMock.hazard with
      | some h => getHazardDisplay (some h)
      | none => noHazardDisplay
    let weekHazards :=
      weekMockDays.map (fun dayKey =>
        match getMockConfig testingMode mockConfig dayKey with
        | some m =>
          match m.hazard with
          | some h => getHazardDisplay (some h)
          | none => noHazardDisplay
        | none => noHazardDisplay)
    some
      { todayPFI := pfiValues.getD 1 0
        todayComparison := { comparison := comparison }
        weekPFI := { dayNames := dayNames, pfiValues := pfiValues.drop 2 }
        todayPrecipitation := todayPrecipitation
        weekPrecipitation := weekPrecipitation
        todayHazard := todayHazard
        weekHazards := weekHazards }

/-- The trend bucket of the mock path (empty string when the mock path
would have crashed). -/
def mockTrendOf : Option MockComparisonResult → String
  | some r => r.todayComparison.comparison
  | none => ""

/-- What one slot of the rendered page shows: `displayResults` sets the
hazard block, or the precipitation block, or neither, to `display: flex`. -/
inductive SlotDisplay where
  | hazard (h : HazardDisplay)
  | precipitation (p : PrecipDisplay)
  | nothing
deriving DecidableEq

/-- The branch structure `displayResults` applies to one slot
(script.js:1413-1438 for today, 1470-1489 for each week slot): the hazard
display takes priority, else the precipitation display, else neither. -/
def displaySlot (hazardDisplay : HazardDisplay) (precipDisplay : PrecipDisplay) :
    SlotDisplay :=
  if hazardDisplay.shown then SlotDisplay.hazard hazardDisplay
  else if precipDisplay.shown then SlotDisplay.precipitation precipDisplay
  else SlotDisplay.nothing

/-- `displayResults` (script.js:1376), restricted to its pure display
decisions: the today slot, and one week slot per entry of
`weekPFI.dayNames` (the forEach index), reading `weekHazards[index]` and
`weekPrecipitation[index]` (an out-of-range read is hidden, as the JS
falsiness checks make it). -/
def displayResults (comparisons : ComparisonResult) :
    SlotDisplay × List SlotDisplay :=
  (displaySlot comparisons.todayHazard comparisons.todayPrecipitation,
   (List.range comparisons.weekPFI.dayNames.length).map (fun index =>
     displaySlot (comparisons.weekHazards.getD index noHazardDisplay)
       (comparisons.weekPrecipitation.getD index noPrecipDisplay)))

/-- Compact constructor for example observations. -/
def mkObs (t : Int) (tmin tmax cloud : ℚ) (prob : Option ℚ)
    (psum wind hum : ℚ) : DailyObservation :=
  { time := t
    apparent_temperature_min := tmin
    apparent_temperature_max := tmax
    cloudcover_mean := cloud
    precipitation_probability_max := prob
    precipitation_sum := psum
    windspeed_10m_max := wind
    relative_humidity_2m_mean := hum }

/-- A concrete 7-day window (index 0 = yesterday, 1 = today, 2..6 the next
five days), with pairwise distinct PFI values and varied precipitation and
hazard markers. -/
def exDaily7 : List DailyObservation :=
  [mkObs 100 10 20 50 (some 10) 0 10 50,
   mkObs 101 11 21 40 (some 20) 0 10 50,
   mkObs 102 12 22 30 (some 40) 0 10 50,
   mkObs 103 13 23 20 (some 80) 0 10 50,
   mkObs 104 (-5) (-1) 50 (some 50) 2 10 50,
   mkObs 105 15 25 50 none 0 10 50,
   mkObs 106 16 26 50 (some 0) 0 60 50]

/-- The same window with an eighth day appended. -/
def exDaily8 : List DailyObservation :=
  exDaily7 ++ [mkObs 107 17 27 50 none 0 10 50]

/-- A day satisfying both the Fire Risk and the Extreme Heat guards. -/
def fireAndHeatDay : DailyObservation := mkObs 0 25 40 50 none 0 30 20

/-- C4: `detectHazards` classifies each day by the first matching rule of
the fixed priority order Fire Risk, Extreme Heat, Heavy Rain, Snow/Ice,
Extreme Cold, Strong Winds, else none (so at most one hazard per day), and
a day with tempMax = 40, humidity = 20, wind = 30, precipitationSum = 0
yields Fire Risk, not Extreme Heat. -/
theorem C4_hazard_priority (d : DailyObservation) :
    (fireRiskCond d → detectHazardDay d = some "Fire Risk")
    ∧ (¬ fireRiskCond d → extremeHeatCond d →
        detectHazardDay d = some "Extreme Heat")
    ∧ (¬ fireRiskCond d → ¬ extremeHeatCond d → heavyRainCond d →
        detectHazardDay d = some "Heavy Rain")
    ∧ (¬ fireRiskCond d → ¬ extremeHeatCond d → ¬ heavyRainCond d →
        snowIceCond d → detectHazardDay d = some "Snow/Ice")
    ∧ (¬ fireRiskCond d → ¬ extremeHeatCond d → ¬ heavyRainCond d →
        ¬ snowIceCond d → extremeColdCond d →
        detectHazardDay d = some "Extreme Cold")
    ∧ (¬ fireRiskCond d → ¬ extremeHeatCond d → ¬ heavyRainCond d →
        ¬ snowIceCond d → ¬ extremeColdCond d → strongWindsCond d →
        detectHazardDay d = some "Strong Winds")
    ∧ (¬ fireRiskCond d → ¬ extremeHeatCond d → ¬ heavyRainCond d →
        ¬ snowIceCond d → ¬ extremeColdCond d → ¬ strongWindsCond d →
        detectHazardDay d = none)
    ∧ detectHazards [fireAndHeatDay] = [some "Fire Risk"] := by
  refine ⟨?_, ?_, ?_, ?_, ?_, ?_, ?_, ?_⟩ <;>
    first
      | decide
      | (intros; simp only [detectHazardDay]; split_ifs <;> first | rfl | tauto)

/-- C4 witness: the Fire Risk clause applied to the concrete day with
tempMax = 40, humidity = 20, wind = 30, precipitationSum = 0. -/
theorem C4_hazard_priority_witness :
    detectHazardDay fireAndHeatDay = some "Fire Risk" :=
  (C4_hazard_priority fireAndHeatDay).1 (by decide)

/-- C5 counterexample: at rain = 50, snow = 50 the code classifies snow
("Likely to snow"), not rain — ties do not favor rain. -/
theorem C5_counterexample :
    determinePrecipitationType 50 50
        = some { kind := PrecipKind.snow, probability := 50 }
    ∧ (getPrecipitationDisplay (determinePrecipitationType 50 50)).label
        = "Likely to snow"
    ∧ determinePrecipitationType 50 50
        ≠ some { kind := PrecipKind.rain, probability := 50 } := by
  decide

/-- C5 (amended): when rain > 30 or snow > 30, the side with the strictly
higher value wins and ties favor snow: rain is returned exactly when
rainProb > snowProb, and snow whenever rainProb <= snowProb. -/
theorem C5_amended_tie_favors_snow (rainProb snowProb : ℚ)
    (h : 30 < rainProb ∨ 30 < snowProb) :
    (snowProb < rainProb →
      determinePrecipitationType rainProb snowProb
        = some { kind := PrecipKind.rain, probability := rainProb })
    ∧ (rainProb ≤ snowProb →
      determinePrecipitationType rainProb snowProb
        = some { kind := PrecipKind.snow, probability := snowProb }) := by
  have hno : ¬ (rainProb ≤ 30 ∧ snowProb ≤ 30) := by
    rcases h with h | h <;> (rintro ⟨h1, h2⟩; linarith)
  constructor
  · intro hlt
    unfold determinePrecipitationType
    rw [if_neg hno, if_pos hlt]
  · intro hle
    unfold determinePrecipitationType
    rw [if_neg hno, if_neg (not_lt.2 hle)]

/-- C5 witness: the tie clause applied at rain = 50, snow = 50. -/
theorem C5_amended_tie_favors_snow_witness :
    determinePrecipitationType 50 50
      = some { kind := PrecipKind.snow, probability := 50 } :=
  (C5_amended_tie_favors_snow 50 50 (Or.inl (by norm_num))).2 le_rfl

/-- C6: for every day of the input, the PFI of the corresponding output
entry of `calculatePFI` is exactly
`(apparentTempMin + apparentTempMax) / 2 + 0.02 * (50 - cloudCoverMean)`. -/
theorem C6_pfi_formula (daily : List DailyObservation) (i : Nat)
    (day : DailyObservation) (h : daily[i]? = some day) :
    ((calculatePFI daily)[i]?).map PfiDay.pfi
      = some ((day.apparent_temperature_min + day.apparent_temperature_max) / 2
          + (0.02 : ℚ) * (50 - day.cloudcover_mean)) := by
  simp [calculatePFI, List.getElem?_map, h, calculatePFIDay]

/-- C6 witness: min = 10, max = 20, cloud = 50 gives pfi = 15. -/
theorem C6_pfi_formula_witness :
    ((calculatePFI [mkObs 0 10 20 50 none 0 0 0])[0]?).map PfiDay.pfi
      = some 15 := by
  rw [C6_pfi_formula [mkObs 0 10 20 50 none 0 0 0] 0 (mkObs 0 10 20 50 none 0 0 0) rfl]
  norm_num [mkObs]

/-- C7: `generateComparisonData` classifies the trend of a PFI difference
by `percentage = round(diff * 5)` with strict thresholds (> 35, > 15, > 5
and the negated mirror), stores `|percentage|`, renders the percentage in
`fullDisplay` exactly when `|percentage| >= 5`, and diff = 1.0 gives
percentage = 5 and the bucket "same". -/
theorem C7_trend_thresholds (diff : ℚ) :
    ((generateComparisonData diff "Today").comparison
      = (if jsRound (diff * 5) > 35 then "significantly_hotter"
         else if jsRound (diff * 5) > 15 then "noticeably_hotter"
         else if jsRound (diff * 5) > 5 then "hotter"
         else if jsRound (diff * 5) < -35 then "significantly_colder"
         else if jsRound (diff * 5) < -15 then "noticeably_colder"
         else if jsRound (diff * 5) < -5 then "colder"
         else "same"))
    ∧ (generateComparisonData diff "Today").percentage = |jsRound (diff * 5)|
    ∧ ((generateComparisonData diff "Today").fullDisplay
      = (if |jsRound (diff * 5)| ≥ 5
         then (generateComparisonData diff "Today").arrow ++ " "
              ++ toString |jsRound (diff * 5)| ++ "%"
         else (generateComparisonData diff "Today").arrow))
    ∧ (generateComparisonData 1 "Today").percentage = 5
    ∧ (generateComparisonData 1 "Today").comparison = "same" := by
  refine ⟨?_, rfl, ?_, ?_, ?_⟩
  · simp only [generateComparisonData]
    split_ifs <;> rfl
  · simp only [generateComparisonData]
  · norm_num [generateComparisonData, jsRound]
  · norm_num [generateComparisonData, jsRound]

/-- C10: for every day processed by `calculatePFI`, the derived pair
assigns the (0-defaulted) precipitation probability to rain with snow = 0
when the average apparent temperature is > 0, and symmetrically to snow
with rain = 0 when it is <= 0; hence rain and snow are never both above 30,
and a tie rain = snow forces both to 0, on which
`determinePrecipitationType` returns none. -/
theorem C10_precip_exclusive (daily : List DailyObservation) (i : Nat)
    (day : DailyObservation) (h : daily[i]? = some day) :
    (((calculatePFI daily)[i]?).map
        (fun pd => (pd.precipitation.rain, pd.precipitation.snow))
      = some (if (day.apparent_temperature_min + day.apparent_temperature_max) / 2 > 0
              then (day.precipitation_probability_max.getD 0, 0)
              else (0, day.precipitation_probability_max.getD 0)))
    ∧ (((calculatePFI daily)[i]?).map
        (fun pd => decide (pd.precipitation.rain > 30 ∧ pd.precipitation.snow > 30))
      = some false)
    ∧ (((calculatePFI daily)[i]?).map
        (fun pd =>
          if pd.precipitation.rain = pd.precipitation.snow
          then determinePrecipitationType pd.precipitation.rain pd.precipitation.snow
          else none)
      = some none) := by
  have hrain : (calculatePFIDay day).precipitation.rain
      = if (day.apparent_temperature_min + day.apparent_temperature_max) / 2 > 0
        then day.precipitation_probability_max.getD 0 else 0 := rfl
  have hsnow : (calculatePFIDay day).precipitation.snow
      = if (day.apparent_temperature_min + day.apparent_temperature_max) / 2 ≤ 0
        then day.precipitation_probability_max.getD 0 else 0 := rfl
  have hget : (calculatePFI daily)[i]? = some (calculatePFIDay day) := by
    simp [calculatePFI, List.getElem?_map, h, calculatePFIDay]
  rw [hget]
  simp only [Option.map_some']
  rcases le_or_lt ((day.apparent_temperature_min + day.apparent_temperature_max) / 2) 0
    with hle | hpos
  · have hng : ¬ ((day.apparent_temperature_min + day.apparent_temperature_max) / 2 > 0) :=
      not_lt.2 hle
    rw [hrain, hsnow, if_pos hle, if_neg hng, if_neg hng]
    refine ⟨rfl, ?_, ?_⟩
    · have hnot : ¬ ((0 : ℚ) > 30 ∧ day.precipitation_probability_max.getD 0 > 30) := by
        rintro ⟨h1, h2⟩
        norm_num at h1
      rw [decide_eq_false hnot]
    · rcases eq_or_ne (day.precipitation_probability_max.getD 0) 0 with hz | hz
      · rw [hz, if_pos rfl]
        norm_num [determinePrecipitationType]
      · rw [if_neg (fun hcon => hz hcon.symm)]
  · have hng : ¬ ((day.apparent_temperature_min + day.apparent_temperature_max) / 2 ≤ 0) :=
      not_le.2 hpos
    rw [hrain, hsnow, if_pos hpos, if_neg hng, if_pos hpos]
    refine ⟨rfl, ?_, ?_⟩
    · have hnot : ¬ (day.precipitation_probability_max.getD 0 > 30 ∧ (0 : ℚ) > 30) := by
        rintro ⟨h1, h2⟩
        norm_num at h2
      rw [decide_eq_false hnot]
    · rcases eq_or_ne (day.precipitation_probability_max.getD 0) 0 with hz | hz
      · rw [hz, if_pos rfl]
        norm_num [determinePrecipitationType]
      · rw [if_neg hz]

/-- C10 witness: the exclusivity statement at a concrete warm day with
probability 55. -/
theorem C10_precip_exclusive_witness :
    ((calculatePFI [mkObs 0 10 20 50 (some 55) 0 0 0])[0]?).map
        (fun pd => (pd.precipitation.rain, pd.precipitation.snow))
      = some (55, 0) := by
  have h := (C10_precip_exclusive [mkObs 0 10 20 50 (some 55) 0 0 0] 0
    (mkObs 0 10 20 50 (some 55) 0 0 0) rfl).1
  rw [h]
  norm_num [mkObs]

/-- C2 counterexample: an 8-entry window does NOT raise the
insufficient-data error — `generateComparisons` only checks
`pfiData.length < 7`, so it returns a `ComparisonResult` for 8 entries,
contrary to the claim that every length other than 7 raises. -/
theorem C2_counterexample :
    isOkComparison (generateComparisons 0 (calculatePFI exDaily8) 0 exDaily8) = true := by
  rfl

/-- C2 (amended): `generateComparisons` raises the insufficient-data error
exactly when the window has fewer than 7 entries (so for a 6-entry window),
and returns a `ComparisonResult` without raising it for every window of
length at least 7 — including length exactly 7 and length 8. -/
theorem C2_amended_length_guard (now : Int) (pfiData : List PfiDay)
    (currentTemp : ℚ) (weatherDaily : List DailyObservation) :
    (pfiData.length < 7 →
      generateComparisons now pfiData currentTemp weatherDaily
        = Except.error "Not enough weather data")
    ∧ (7 ≤ pfiData.length →
      isOkComparison
        (generateComparisons now pfiData currentTemp weatherDaily) = true) := by
  constructor
  · intro h
    unfold generateComparisons
    rw [if_pos h]
  · intro h
    rcases pfiData with _ | ⟨a, rest⟩
    · simp at h
    · rcases rest with _ | ⟨b, rest2⟩
      · simp at h
      · unfold generateComparisons
        rw [if_neg (by omega)]
        rfl

/-- C2 witness: the no-error clause applied to the concrete 7-day window. -/
theorem C2_amended_length_guard_witness :
    isOkComparison (generateComparisons 0 (calculatePFI exDaily7) 0 exDaily7) = true :=
  (C2_amended_length_guard 0 (calculatePFI exDaily7) 0 exDaily7).2 (by decide)

/-- C3 counterexample: on a valid 7-element window the forward series does
depend on the current wall-clock date — running `generateComparisons` on
the same window at two different current dates yields different day-name
lists (the sixth label is recomputed from the wall clock), contrary to the
claim that every label derives only from the input data. -/
theorem C3_counterexample :
    (resultOrDefault (generateComparisons 0 (calculatePFI exDaily7) 0 exDaily7)).weekPFI.dayNames
      ≠ (resultOrDefault (generateComparisons 1 (calculatePFI exDaily7) 0 exDaily7)).weekPFI.dayNames := by
  decide

/-- C3 (amended): for every 7-element window, `weekPFI` has exactly 6
day names and 6 PFI entries and starts at tomorrow: entries 0..4 carry the
PFI of input days 2..6 (tomorrow through day 6) with labels derived from
those entries' own calendar dates, while entry 5 has a null PFI value and a
label recomputed from the current wall-clock date plus 6 days. -/
theorem C3_amended_forward_series (now : Int) (pfiData : List PfiDay)
    (currentTemp : ℚ) (weatherDaily : List DailyObservation)
    (h7 : pfiData.length = 7) (i : Nat) (hi : i < 5) :
    ((resultOrDefault (generateComparisons now pfiData currentTemp weatherDaily)).weekPFI.dayNames.length = 6)
    ∧ ((resultOrDefault (generateComparisons now pfiData currentTemp weatherDaily)).weekPFI.pfiValues.length = 6)
    ∧ ((resultOrDefault (generateComparisons now pfiData currentTemp weatherDaily)).weekPFI.pfiValues.get? i
        = (pfiData.get? (i + 2)).map (fun p => some p.pfi))
    ∧ ((resultOrDefault (generateComparisons now pfiData currentTemp weatherDaily)).weekPFI.dayNames.get? i
        = (pfiData.get? (i + 2)).map (fun p => weekdayShort p.date))
    ∧ ((resultOrDefault (generateComparisons now pfiData currentTemp weatherDaily)).weekPFI.pfiValues.get? 5
        = some none)
    ∧ ((resultOrDefault (generateComparisons now pfiData currentTemp weatherDaily)).weekPFI.dayNames.get? 5
        = some (weekdayShort (now + 6))) := by
  rcases pfiData with _ | ⟨p0, rest⟩
  · simp at h7
  rcases rest with _ | ⟨p1, rest⟩
  · simp at h7
  rcases rest with _ | ⟨p2, rest⟩
  · simp at h7
  rcases rest with _ | ⟨p3, rest⟩
  · simp at h7
  rcases rest with _ | ⟨p4, rest⟩
  · simp at h7
  rcases rest with _ | ⟨p5, rest⟩
  · simp at h7
  rcases rest with _ | ⟨p6, rest⟩
  · simp at h7
  have hrest : rest = [] := by
    simpa using h7
  subst hrest
  interval_cases i <;> exact ⟨rfl, rfl, rfl, rfl, rfl, rfl⟩

/-- C3 witness: the amended statement at the concrete 7-day window,
current date 0, slot 0. -/
theorem C3_amended_forward_series_witness :
    (resultOrDefault (generateComparisons 0 (calculatePFI exDaily7) 0 exDaily7)).weekPFI.pfiValues.get? 5
      = some none :=
  (C3_amended_forward_series 0 (calculatePFI exDaily7) 0 exDaily7 (by decide) 0
    (by norm_num)).2.2.2.2.1

/-- An all-zero observation, used only as an out-of-range default. -/
def dummyObs : DailyObservation := mkObs 0 0 0 0 none 0 0 0

/-- C1 counterexample: on the concrete 7-day window there is NO day index
of the window from which forward slot 5's PFI entry, precipitation display
and hazard display are all derived — slot 5's PFI entry is the null
fallback, which is no day's PFI — so the alignment claim fails for i = 5. -/
theorem C1_counterexample :
    ¬ ∃ j : Fin 7,
      ((resultOrDefault (generateComparisons 0 (calculatePFI exDaily7) 0 exDaily7)).weekPFI.pfiValues.getD 5 (some 0)
          = some (((calculatePFI exDaily7).getD (j : Nat) (calculatePFIDay dummyObs)).pfi))
      ∧ ((resultOrDefault (generateComparisons 0 (calculatePFI exDaily7) 0 exDaily7)).weekPrecipitation.getD 5 noPrecipDisplay
          = getPrecipitationDisplay (determinePrecipitationType
              ((calculatePFI exDaily7).getD (j : Nat) (calculatePFIDay dummyObs)).precipitation.rain
              ((calculatePFI exDaily7).getD (j : Nat) (calculatePFIDay dummyObs)).precipitation.snow))
      ∧ ((resultOrDefault (generateComparisons 0 (calculatePFI exDaily7) 0 exDaily7)).weekHazards.getD 5 noHazardDisplay
          = getHazardDisplay (detectHazardDay (exDaily7.getD (j : Nat) dummyObs))) := by
  decide

/-- C1 (amended): for every 7-element window, forward slots 0..4 of
`weekPFI.pfiValues`, `weekPrecipitation` and `weekHazards` are all derived
from the same underlying input day index i + 2; slot 5 is driven by the
shared out-of-range index and uniformly holds the no-data sentinels (null
PFI, hidden precipitation display, hidden hazard display), derived from no
day of the window. -/
theorem C1_amended_alignment (now : Int) (window : List DailyObservation)
    (currentTemp : ℚ) (h7 : window.length = 7) (i : Nat) (hi : i < 5) :
    ((resultOrDefault (generateComparisons now (calculatePFI window) currentTemp window)).weekPFI.pfiValues.get? i
        = ((calculatePFI window).get? (i + 2)).map (fun p => some p.pfi))
    ∧ ((resultOrDefault (generateComparisons now (calculatePFI window) currentTemp window)).weekPrecipitation.get? i
        = ((calculatePFI window).get? (i + 2)).map (fun p =>
            getPrecipitationDisplay
              (determinePrecipitationType p.precipitation.rain p.precipitation.snow)))
    ∧ ((resultOrDefault (generateComparisons now (calculatePFI window) currentTemp window)).weekHazards.get? i
        = (window.get? (i + 2)).map (fun day => getHazardDisplay (detectHazardDay day)))
    ∧ ((resultOrDefault (generateComparisons now (calculatePFI window) currentTemp window)).weekPFI.pfiValues.get? 5
        = some none)
    ∧ ((resultOrDefault (generateComparisons now (calculatePFI window) currentTemp window)).weekPrecipitation.get? 5
        = some noPrecipDisplay)
    ∧ ((resultOrDefault (generateComparisons now (calculatePFI window) currentTemp window)).weekHazards.get? 5
        = some noHazardDisplay) := by
  rcases window with _ | ⟨w0, rest⟩
  · simp at h7
  rcases rest with _ | ⟨w1, rest⟩
  · simp at h7
  rcases rest with _ | ⟨w2, rest⟩
  · simp at h7
  rcases rest with _ | ⟨w3, rest⟩
  · simp at h7
  rcases rest with _ | ⟨w4, rest⟩
  · simp at h7
  rcases rest with _ | ⟨w5, rest⟩
  · simp at h7
  rcases rest with _ | ⟨w6, rest⟩
  · simp at h7
  have hrest : rest = [] := by
    simpa using h7
  subst hrest
  interval_cases i <;> exact ⟨rfl, rfl, rfl, rfl, rfl, rfl⟩

/-- C1 witness: the amended alignment at the concrete window, slot 0. -/
theorem C1_amended_alignment_witness :
    (resultOrDefault (generateComparisons 0 (calculatePFI exDaily7) 0 exDaily7)).weekPFI.pfiValues.get? 0
      = ((calculatePFI exDaily7).get? 2).map (fun p => some p.pfi) :=
  (C1_amended_alignment 0 exDaily7 0 (by decide) 0 (by norm_num)).1

/-- C8: whenever a slot's hazard display is shown, `displayResults` renders
only the hazard for that slot — for today and for every forward slot — so
the slot's precipitation display is suppressed and no slot ever shows
both. -/
theorem C8_hazard_suppresses_precipitation (comparisons : ComparisonResult) :
    (comparisons.todayHazard.shown = true →
      (displayResults comparisons).1 = SlotDisplay.hazard comparisons.todayHazard)
    ∧ (∀ index : Nat, index < comparisons.weekPFI.dayNames.length →
        (comparisons.weekHazards.getD index noHazardDisplay).shown = true →
        (displayResults comparisons).2.get? index
          = some (SlotDisplay.hazard (comparisons.weekHazards.getD index noHazardDisplay))) := by
  constructor
  · intro h
    unfold displayResults displaySlot
    rw [if_pos h]
  · intro index hidx hshow
    unfold displayResults
    rw [List.get?_eq_getElem?, List.getElem?_map,
      List.getElem?_range hidx, Option.map_some']
    unfold displaySlot
    rw [if_pos hshow]

/-- C8 witness: a concrete result whose today slot and forward slot 0 both
qualify for a hazard and a precipitation display; only the hazard shows. -/
theorem C8_hazard_suppresses_precipitation_witness :
    (displayResults
        { todayPFI := 20
          todayComparison := generateComparisonData 0 "Today"
          weekPFI := { dayNames := ["Mon"], pfiValues := [some 20] }
          todayPrecipitation := getPrecipitationDisplay
            (determinePrecipitationType 80 0)
          weekPrecipitation := [getPrecipitationDisplay
            (determinePrecipitationType 80 0)]
          todayHazard := getHazardDisplay (some "Extreme Heat")
          weekHazards := [getHazardDisplay (some "Extreme Heat")] }).1
      = SlotDisplay.hazard (getHazardDisplay (some "Extreme Heat")) :=
  (C8_hazard_suppresses_precipitation
    { todayPFI := 20
      todayComparison := generateComparisonData 0 "Today"
      weekPFI := { dayNames := ["Mon"], pfiValues := [some 20] }
      todayPrecipitation := getPrecipitationDisplay
        (determinePrecipitationType 80 0)
      weekPrecipitation := [getPrecipitationDisplay
        (determinePrecipitationType 80 0)]
      todayHazard := getHazardDisplay (some "Extreme Heat")
      weekHazards := [getHazardDisplay (some "Extreme Heat")] }).1 (by decide)

/-- `Math.round` of an integer-valued rational is that integer. -/
theorem jsRound_intCast (k : ℤ) : jsRound (k : ℚ) = k := by
  unfold jsRound
  rw [Int.floor_eq_iff]
  constructor
  · push_cast
    linarith
  · push_cast
    linarith

/-- Reduction of the mock path's trend bucket: when the `today` and
`yesterday` entries are found in the config, the bucket is the inline
threshold chain of `generateMockComparisons` on `td.pfi - yd.pfi`. -/
theorem generateMockComparisons_trend (cfg : List MockDay) (now : Int)
    (td yd : MockDay)
    (htd : getMockConfig true cfg "today" = some td)
    (hyd : getMockConfig true cfg "yesterday" = some yd) :
    mockTrendOf (generateMockComparisons true cfg now)
      = (if td.pfi - yd.pfi > 7 then "significantly_hotter"
         else if td.pfi - yd.pfi > 3 then "noticeably_hotter"
         else if td.pfi - yd.pfi > 1 then "hotter"
         else if td.pfi - yd.pfi < -7 then "significantly_colder"
         else if td.pfi - yd.pfi < -3 then "noticeably_colder"
         else if td.pfi - yd.pfi < -1 then "colder"
         else "same") := by
  unfold generateMockComparisons
  rw [htd, hyd]
  rfl

/-- The trend bucket of the live path as an if chain on
`jsRound (difference * 5)`. -/
theorem generateComparisonData_comparison (difference : ℚ) (dayName : String) :
    (generateComparisonData difference dayName).comparison
      = (if jsRound (difference * 5) > 35 then "significantly_hotter"
         else if jsRound (difference * 5) > 15 then "noticeably_hotter"
         else if jsRound (difference * 5) > 5 then "hotter"
         else if jsRound (difference * 5) < -35 then "significantly_colder"
         else if jsRound (difference * 5) < -15 then "noticeably_colder"
         else if jsRound (difference * 5) < -5 then "colder"
         else "same") := by
  simp only [generateComparisonData]
  split_ifs <;> rfl

/-- C9 (amended): the mock-mode trend bucket equals the live trend bucket
on the same PFI difference whenever 5 times the difference is an integer
(in particular whenever both PFI values are integers, as in the shipped
mock config); outside that case the two paths can diverge. -/
theorem C9_amended_trend_equiv (cfg : List MockDay) (now : Int)
    (td yd : MockDay) (k : ℤ)
    (htd : getMockConfig true cfg "today" = some td)
    (hyd : getMockConfig true cfg "yesterday" = some yd)
    (hk : (td.pfi - yd.pfi) * 5 = (k : ℚ)) :
    mockTrendOf (generateMockComparisons true cfg now)
      = (generateComparisonData (td.pfi - yd.pfi) "Today").comparison := by
  rw [generateMockComparisons_trend cfg now td yd htd hyd]
  rw [generateComparisonData_comparison]
  have hjr : jsRound ((td.pfi - yd.pfi) * 5) = k := by
    rw [hk]
    exact jsRound_intCast k
  rw [hjr]
  set d := td.pfi - yd.pfi with hd
  have c1 : (d > 7) ↔ (k > 35) := by
    constructor
    · intro h
      have h5 : (35 : ℚ) < (k : ℚ) := by
        rw [← hk]
        linarith
      exact_mod_cast h5
    · intro h
      have h5 : (35 : ℚ) < (k : ℚ) := by exact_mod_cast h
      rw [← hk] at h5
      linarith
  have c2 : (d > 3) ↔ (k > 15) := by
    constructor
    · intro h
      have h5 : (15 : ℚ) < (k : ℚ) := by
        rw [← hk]
        linarith
      exact_mod_cast h5
    · intro h
      have h5 : (15 : ℚ) < (k : ℚ) := by exact_mod_cast h
      rw [← hk] at h5
      linarith
  have c3 : (d > 1) ↔ (k > 5) := by
    constructor
    · intro h
      have h5 : (5 : ℚ) < (k : ℚ) := by
        rw [← hk]
        linarith
      exact_mod_cast h5
    · intro h
      have h5 : (5 : ℚ) < (k : ℚ) := by exact_mod_cast h
      rw [← hk] at h5
      linarith
  have c4 : (d < -7) ↔ (k < -35) := by
    constructor
    · intro h
      have h5 : (k : ℚ) < (-35 : ℚ) := by
        rw [← hk]
        linarith
      exact_mod_cast h5
    · intro h
      have h5 : (k : ℚ) < (-35 : ℚ) := by exact_mod_cast h
      rw [← hk] at h5
      linarith
  have c5 : (d < -3) ↔ (k < -15) := by
    constructor
    · intro h
      have h5 : (k : ℚ) < (-15 : ℚ) := by
        rw [← hk]
        linarith
      exact_mod_cast h5
    · intro h
      have h5 : (k : ℚ) < (-15 : ℚ) := by exact_mod_cast h
      rw [← hk] at h5
      linarith
  have c6 : (d < -1) ↔ (k < -5) := by
    constructor
    · intro h
      have h5 : (k : ℚ) < (-5 : ℚ) := by
        rw [← hk]
        linarith
      exact_mod_cast h5
    · intro h
      have h5 : (k : ℚ) < (-5 : ℚ) := by exact_mod_cast h
      rw [← hk] at h5
      linarith
  simp only [c1, c2, c3, c4, c5, c6]

/-- A mock config with the integer PFI values of the shipped configuration
(yesterday 21, today 7). -/
def exMockIntConfig : List MockDay :=
  [{ day := "yesterday", pfi := 21, precipitation := { rain := 15, snow := 5 },
     hazard := none },
   { day := "today", pfi := 7, precipitation := { rain := 40, snow := 20 },
     hazard := some "Heavy Rain" }]

/-- C9 witness: on integer PFIs 21 and 7 the mock bucket equals the live
bucket of the difference. -/
theorem C9_amended_trend_equiv_witness :
    mockTrendOf (generateMockComparisons true exMockIntConfig 0)
      = (generateComparisonData ((7 : ℚ) - 21) "Today").comparison :=
  C9_amended_trend_equiv exMockIntConfig 0
    { day := "today", pfi := 7, precipitation := { rain := 40, snow := 20 },
      hazard := some "Heavy Rain" }
    { day := "yesterday", pfi := 21, precipitation := { rain := 15, snow := 5 },
      hazard := none }
    (-70) rfl rfl (by norm_num)

/-- The `today` entry of the fractional mock config (PFI 21.05). -/
def exMockFracToday : MockDay :=
  { day := "today", pfi := 2105 / 100, precipitation := { rain := 0, snow := 0 },
    hazard := none }

/-- The `yesterday` entry of the fractional mock config (PFI 20). -/
def exMockFracYesterday : MockDay :=
  { day := "yesterday", pfi := 20, precipitation := { rain := 0, snow := 0 },
    hazard := none }

/-- A mock config whose PFI difference is 1.05. -/
def exMockFracConfig : List MockDay :=
  [exMockFracYesterday, exMockFracToday]

/-- C9 counterexample: at yesterday PFI 20 and today PFI 21.05 (difference
1.05) the mock path says "hotter" while the live path on the same
difference says "same" — the two paths do not apply the same
trend-threshold rules. -/
theorem C9_counterexample :
    mockTrendOf (generateMockComparisons true exMockFracConfig 0) = "hotter"
    ∧ (generateComparisonData ((2105 : ℚ) / 100 - 20) "Today").comparison
        = "same" := by
  constructor
  · rw [generateMockComparisons_trend exMockFracConfig 0 exMockFracToday
      exMockFracYesterday rfl rfl]
    norm_num [exMockFracToday, exMockFracYesterday]
  · norm_num [generateComparisonData, jsRound]
